import Mathlib

/-!
Verification of the SAP-Assistant ingestion-and-retrieval pipeline.

The definitions below are a shallow embedding of the Python sources
(`api/services/ingest.py`, `api/services/embeddings.py`,
`api/services/llm.py`, `api/routers/search.py`).  Python strings are
`String`, Python ints are `ℕ`, Python floats are modelled as exact
rationals `ℚ` (every literal appearing in the confidence computation —
0.1, 0.5, 0.8, 1.2, 0.7, 0.85, 0.6 — is a short dyadic/decimal constant,
and the quantities compared differ by far more than double rounding
error), `None`-able values are `Option`, and the relational/vector
stores are explicit lists threaded through the functions.  External
collaborators (tiktoken token counting, SHA-256, the embedding and
generation backends) are parameters of the embedded functions.
-/

namespace SAPAssistant

/-! ## Python string primitives -/

/-- The whitespace characters stripped by Python `str.strip()` /
split on by `str.split()` (ASCII range). -/
def isPySpace (c : Char) : Bool :=
  c = ' ' || c = '\t' || c = '\n' || c = '\r' || c = '\x0b' || c = '\x0c'

/-- Python `str.strip()` on the character list. -/
def pyStripList (l : List Char) : List Char :=
  ((l.dropWhile isPySpace).reverse.dropWhile isPySpace).reverse

/-- Python `str.strip()`. -/
def pyStrip (s : String) : String := ⟨pyStripList s.data⟩

/-- Python `str.upper()` (ASCII letters; the repository's vocabulary is
ASCII). -/
def pyUpper (s : String) : String := ⟨s.data.map Char.toUpper⟩

/-- Python `str.lower()` (ASCII letters). -/
def pyLower (s : String) : String := ⟨s.data.map Char.toLower⟩

/-- Split a character list at every character satisfying `p`, keeping
empty pieces (the semantics of `str.split(sep)` at character
granularity).  Structural recursion so that the kernel can evaluate
it. -/
def splitCharsAux (p : Char → Bool) : List Char → List Char → List (List Char)
  | [], acc => [acc.reverse]
  | c :: rest, acc =>
    if p c then acc.reverse :: splitCharsAux p rest []
    else splitCharsAux p rest (c :: acc)

/-- Python `str.split()` with no argument: split on whitespace runs,
discarding empty pieces. -/
def pySplitWs (s : String) : List String :=
  ((splitCharsAux isPySpace s.data []).map (fun l => (⟨l⟩ : String))).filter
    (fun w => w ≠ "")

/-- Boolean list-prefix test (structural, kernel-evaluable). -/
def isPrefixB : List Char → List Char → Bool
  | [], _ => true
  | _ :: _, [] => false
  | a :: as, b :: bs => a = b && isPrefixB as bs

/-- Boolean list-infix test (structural, kernel-evaluable). -/
def isInfixB (needle : List Char) : List Char → Bool
  | [] => isPrefixB needle []
  | c :: rest => isPrefixB needle (c :: rest) || isInfixB needle rest

/-- Python `needle in haystack` on strings (substring containment). -/
def strContainsSub (hay needle : String) : Bool :=
  isInfixB needle.data hay.data

/-- Python `str.split(sep)` for a non-empty separator: left-to-right,
non-overlapping, empty pieces kept.  Fuelled structural recursion (the
fuel, instantiated with the haystack length, dominates the number of
steps because every step consumes at least one character). -/
def splitOnFuel (sep : List Char) : ℕ → List Char → List Char → List (List Char)
  | 0, rest, acc => [(acc.reverse ++ rest)]
  | _ + 1, [], acc => [acc.reverse]
  | fuel + 1, c :: rest, acc =>
    if isPrefixB sep (c :: rest) then
      acc.reverse :: splitOnFuel sep fuel ((c :: rest).drop sep.length) []
    else splitOnFuel sep fuel rest (c :: acc)

/-- Python `str.split(sep)` for a non-empty separator. -/
def pySplitOn (s sep : String) : List String :=
  (splitOnFuel sep.data s.data.length s.data []).map (fun l => (⟨l⟩ : String))

/-- Python `sep.join(pieces)`. -/
def joinWith (sep : String) : List String → String
  | [] => ""
  | [x] => x
  | x :: y :: xs => x ++ sep ++ joinWith sep (y :: xs)

/-- Python `s[:n]` (first `n` characters). -/
def pyTake (s : String) (n : ℕ) : String := ⟨s.data.take n⟩

/-! ## MetadataExtractor (`api/services/ingest.py`, class MetadataExtractor)

The three regexes `\b[A-Z]{2}\d{2}\b`, `\b[A-Z][A-Z0-9_]{3,}\b` and
`\b[ZY][A-Z0-9_]{2,}\b` are applied with `findall` to `text.upper()`.
Because each pattern consumes only word characters and is anchored with
`\b` on both sides, its matches are exactly the maximal word-character
runs (words over `[A-Z0-9_]` after upcasing) having the given shape:
a match can neither start nor stop in the middle of such a run. The
embedding therefore tokenizes the upcased text into maximal
word-character runs and filters them by shape. -/

/-- A regex word character `\w` (ASCII). -/
def isWordChar (c : Char) : Bool := c.isAlphanum || c = '_'

/-- Maximal word-character runs of the upcased text: the candidate set
for all three `findall` calls. -/
def wordTokens (s : String) : List String :=
  ((splitCharsAux (fun c => !isWordChar c) (pyUpper s).data []).map
    (fun l => (⟨l⟩ : String))).filter (fun w => w ≠ "")

def isUpperAlpha (c : Char) : Bool := 'A' ≤ c && c ≤ 'Z'

/-- A character of the class `[A-Z0-9_]`. -/
def isUpperWordChar (c : Char) : Bool := isUpperAlpha c || c.isDigit || c = '_'

/-- Shape of `\b[A-Z]{2}\d{2}\b` as a whole-word test. -/
def isTcodeShape (w : String) : Bool :=
  match w.data with
  | [a, b, c, d] => isUpperAlpha a && isUpperAlpha b && c.isDigit && d.isDigit
  | _ => false

/-- Shape of `\b[A-Z][A-Z0-9_]{3,}\b` as a whole-word test. -/
def isTableShape (w : String) : Bool :=
  match w.data with
  | c :: rest => isUpperAlpha c && rest.length ≥ 3 && rest.all isUpperWordChar
  | [] => false

/-- Shape of `\b[ZY][A-Z0-9_]{2,}\b` as a whole-word test. -/
def isZShape (w : String) : Bool :=
  match w.data with
  | c :: rest => (c = 'Z' || c = 'Y') && rest.length ≥ 2 && rest.all isUpperWordChar
  | [] => false

/-- `MetadataExtractor.ISU_TCODES`. -/
def ISU_TCODES : List String :=
  ["EC85", "EC86", "EC87", "EC01", "EC02", "EC03", "EC10", "EC11",
   "ES21", "ES22", "ES23", "ES31", "ES32", "ES33", "ES41", "ES42",
   "EL31", "EL32", "EL33", "EL34", "EL35", "EL36", "EL37", "EL38",
   "EABL", "EABLG", "EORD", "EORDG", "EVER", "EVERG", "EANL", "EANLG"]

/-- `MetadataExtractor.ISU_TABLES`. -/
def ISU_TABLES : List String :=
  ["EABLG", "EABL", "EORDG", "EORD", "EVERG", "EVER", "EANLG", "EANL",
   "BUT000", "BUT020", "ADRC", "FKKVKP", "FKKVK", "ERCH", "ERCHC",
   "DFKKKO", "DFKKOP", "EUITRANS", "ESERVPROV", "TE410", "TE416"]

/-- `MetadataExtractor.TOPIC_MAPPING` in its (significant) insertion
order. -/
def TOPIC_MAPPING : List (String × List String) :=
  [("billing", ["EC85", "EC86", "EC87", "EABL", "EABLG"]),
   ("move-in", ["ES21", "ES22", "ES23", "ES31"]),
   ("move-out", ["ES32", "ES33", "ES41", "ES42"]),
   ("device-management", ["EL31", "EL32", "EL33", "EL34"]),
   ("dunning", ["FKKVKP", "FKKVK", "DFKKKO"]),
   ("contracts", ["EC01", "EC02", "EC03", "EC10"])]

/-- `MetadataExtractor.extract_tcodes`.  Python builds `list(set(...))`,
whose order is unspecified; the embedding deduplicates keeping first
occurrences — all downstream uses are order-insensitive (membership and
non-emptiness). -/
def extract_tcodes (text : String) : List String :=
  ((wordTokens text).filter (fun w => isTcodeShape w && ISU_TCODES.contains w)).dedup

/-- `MetadataExtractor.extract_tables`. -/
def extract_tables (text : String) : List String :=
  ((wordTokens text).filter (fun w => isTableShape w && ISU_TABLES.contains w)).dedup

/-- `MetadataExtractor.detect_z_objects` (no allow-list filter). -/
def detect_z_objects (text : String) : List String :=
  ((wordTokens text).filter isZShape).dedup

/-- `MetadataExtractor.infer_topic`: first the t-code mapping (first
matching topic wins), then the keyword fallback chain on the lowercased
text. -/
def infer_topic (tcodes : List String) (_tables : List String) (text : String) :
    Option String :=
  let tl := pyLower text
  match TOPIC_MAPPING.find? (fun tm => tm.2.any (fun tc => tcodes.contains tc)) with
  | some tm => some tm.1
  | none =>
    if ["factura", "billing", "lectura", "consumo"].any (fun w => strContainsSub tl w) then
      some "billing"
    else if ["alta", "move-in", "conexion", "suministro"].any (fun w => strContainsSub tl w) then
      some "move-in"
    else if ["baja", "move-out", "desconexion"].any (fun w => strContainsSub tl w) then
      some "move-out"
    else if ["aparato", "device", "contador", "medidor"].any (fun w => strContainsSub tl w) then
      some "device-management"
    else if ["reclamacion", "dunning", "impago"].any (fun w => strContainsSub tl w) then
      some "dunning"
    else if ["contrato", "contract"].any (fun w => strContainsSub tl w) then
      some "contracts"
    else none

/-- `MetadataExtractor.infer_system`: the constant label when any code
or table was recognized. -/
def infer_system (tcodes : List String) (tables : List String) : Option String :=
  if tcodes ≠ [] ∨ tables ≠ [] then some "IS-U" else none

/-! ## ScopeResolver (`DocumentProcessor._determine_scope`) -/

/-- `DocumentProcessor._determine_scope`.  `requested` is the optional
`ScopeEnum` of the request (a `str` enum with values `"STANDARD"` and
`"CLIENT_SPECIFIC"`). -/
def determine_scope (requested : Option String) (z_objects : List String)
    (force_scope : Bool) : String :=
  let hasZ := !z_objects.isEmpty
  if requested = some "STANDARD" then
    if hasZ && !force_scope then "CLIENT_SPECIFIC" else "STANDARD"
  else if requested = some "CLIENT_SPECIFIC" then "CLIENT_SPECIFIC"
  else if hasZ then "CLIENT_SPECIFIC" else "STANDARD"

/-- `DocumentProcessor._validate_content`: the warnings carried by a
fresh-ingest response.  Note the first condition tests the *final*
scope. -/
def validate_content (scope : String) (z_objects : List String) (text : String) :
    List String :=
  (if scope = "STANDARD" ∧ z_objects ≠ [] then
    ["STANDARD document contains Z objects: " ++ joinWith ", " (z_objects.take 3)]
   else []) ++
  (if text.length < 50 then ["Document content is very short"] else []) ++
  (if text.length > 50000 then
    ["Document content is very long, chunking may be suboptimal"] else [])

/-- The scope/warnings pair computed by `process_document` steps 4 and 6
for a fresh document. -/
def ingestWarnings (text : String) (requested : Option String) (force : Bool) :
    List String :=
  validate_content (determine_scope requested (detect_z_objects text) force)
    (detect_z_objects text) text

/-! ## RetrievalEngine tenant filter
(`api/routers/search.py` lines 44-47 and `QdrantService.search`,
`api/services/embeddings.py` lines 203-210) -/

/-- The tenant filter list built by `vector_search` and `chat`:
`[slug]`, with `"STANDARD"` appended when the slug differs from it. -/
def tenant_filter (slug : String) : List String :=
  if slug ≠ "STANDARD" then [slug, "STANDARD"] else [slug]

/-- The argument `QdrantService.search` passes to `MatchValue`
(embeddings.py lines 204-210): the first element for a one-element
filter list, the whole list otherwise. -/
inductive MatchArg where
  | str : String → MatchArg
  | strList : List String → MatchArg
deriving DecidableEq, Repr

/-- `tenant_filter[0]` on a one-element list, the whole list
otherwise (embeddings.py lines 207-208). -/
def tenantMatchArg (tf : List String) : MatchArg :=
  if tf.length = 1 then .str (tf.headD "") else .strList tf

/-- The `MatchValue` construction of qdrant-client 1.7.0 (the version
pinned by `scripts/check_dependencies.py`): `MatchValue.value` is
declared `StrictBool | StrictInt | StrictStr` — "Exact match of the
given value" — so pydantic raises a `ValidationError` when a list is
passed; on success the single exact-match value is returned. -/
def mkMatchValue : MatchArg → Except String String
  | .str s => Except.ok s
  | .strList _ => Except.error "ValidationError"

/-- The tenant `FieldCondition` value `QdrantService.search` manages to
construct for a requesting tenant: a single exact-match tenant value,
or the `ValidationError` raised while building it. -/
def tenantCondition (slug : String) : Except String String :=
  mkMatchValue (tenantMatchArg (tenant_filter slug))

/-! ## ConfidenceScorer (`LLMService._calculate_confidence`,
`api/services/llm.py` lines 290-320) -/

/-- The four specificity tokens of `_calculate_confidence`. -/
def SPEC_CODES : List String := ["EC85", "ES21", "EL31", "EABL"]

/-- The hedging phrases of `_calculate_confidence`. -/
def HEDGE_PHRASES : List String := ["podría", "posiblemente", "tal vez", "no estoy seguro"]

/-- `LLMService._calculate_confidence`.  `contextChunks` carries the
retrieved chunk contents (only its length is read, as in the source);
float literals become the rationals they denote. -/
def calculate_confidence (query : String) (contextChunks : List String)
    (answer : String) : ℚ :=
  let _ := query
  if contextChunks.length = 0 then 1/10
  else
    let chunk_factor : ℚ := min ((contextChunks.length : ℚ) / 3) 1
    let answer_length := (pySplitWs answer).length
    let length_factor : ℚ :=
      if answer_length < 20 then 1/2 else if answer_length > 300 then 4/5 else 1
    let specificity_factor : ℚ :=
      if SPEC_CODES.any (fun c => strContainsSub (pyUpper answer) c) then 6/5 else 1
    let uncertainty_factor : ℚ :=
      if HEDGE_PHRASES.any (fun p => strContainsSub (pyLower answer) p) then 7/10 else 1
    let confidence :=
      chunk_factor * length_factor * specificity_factor * uncertainty_factor * (17/20)
    min (max confidence 0) 1

/-! ## AnswerSynthesizer (`LLMService.generate_chat_response`,
`api/services/llm.py` lines 140-157) -/

/-- The generic apology answer of the failure branch. -/
def APOLOGY_ANSWER : String :=
  "Lo siento, ha ocurrido un error al procesar tu consulta. Por favor, inténtalo de nuevo."

/-- The dictionary returned by `generate_chat_response`. -/
structure ChatOutcome where
  answer : String
  confidence : ℚ
  needs_clarification : Bool
deriving DecidableEq, Repr

/-- `LLMService.generate_chat_response`, after the single generation
call: `genResult` is `some answer` when the call returned, `none` when
it raised. -/
def generate_chat_response (genResult : Option String) (query : String)
    (contextChunks : List String) : ChatOutcome :=
  match genResult with
  | some answer =>
    let confidence := calculate_confidence query contextChunks answer
    ⟨answer, confidence, decide (confidence < 3/5)⟩
  | none => ⟨APOLOGY_ANSWER, 0, true⟩

/-! ## Chunker (`EmbeddingService.chunk_text`,
`api/services/embeddings.py` lines 46-141)

`count_tokens` delegates to tiktoken, an external collaborator: it is a
parameter `countT` of the embedding.  `chunk_size` and `overlap` default
to `settings.chunk_size = 800` / `settings.chunk_overlap = 150` but are
genuine parameters of the Python function. -/

/-- One element of the list returned by `chunk_text`. -/
structure ChunkPiece where
  content : String
  index : ℕ
  token_count : ℕ
deriving DecidableEq, Repr

/-- The loop state of `chunk_text`. -/
structure ChunkSt where
  chunks : List ChunkPiece
  current_chunk : String
  current_tokens : ℕ
  chunk_index : ℕ
deriving DecidableEq, Repr

/-- `EmbeddingService._get_overlap_text`.  `int(overlap_tokens * 0.75)`
is exact floor division by 4 of `3 * overlap_tokens` (0.75 is a dyadic
float and the products involved are far below 2^53). -/
def get_overlap_text (text : String) (overlap_tokens : ℕ) : String :=
  let words := pySplitWs text
  if words.length ≤ 20 then text
  else
    let target_words := max 10 (overlap_tokens * 3 / 4)
    joinWith " " (words.drop (words.length - target_words))

/-- One iteration of the accumulate/flush/overlap loop of `chunk_text`,
shared by the sentence-level pass (`ovJoin = " "`, `accJoin = ". "`,
lines 68-94) and the paragraph-level pass (`ovJoin = accJoin = "\n\n"`,
lines 97-120). -/
def stepPiece (countT : String → ℕ) (chunk_size overlap : ℕ)
    (ovJoin accJoin : String) (st : ChunkSt) (piece : String) : ChunkSt :=
  let ptoks := countT piece
  if chunk_size < st.current_tokens + ptoks ∧ st.current_chunk ≠ "" then
    let chunks' := st.chunks ++
      [⟨pyStrip st.current_chunk, st.chunk_index, st.current_tokens⟩]
    if 0 < overlap ∧ st.current_chunk ≠ "" then
      let overlap_text := get_overlap_text st.current_chunk overlap
      let cc := overlap_text ++ ovJoin ++ piece
      ⟨chunks', cc, countT cc, st.chunk_index + 1⟩
    else
      ⟨chunks', piece, ptoks, st.chunk_index + 1⟩
  else
    if st.current_chunk ≠ "" then
      ⟨st.chunks, st.current_chunk ++ accJoin ++ piece, st.current_tokens + ptoks,
        st.chunk_index⟩
    else
      ⟨st.chunks, piece, st.current_tokens + ptoks, st.chunk_index⟩

/-- The body of the paragraph loop of `chunk_text`: skip a
whitespace-only paragraph; sentence-split an oversized one; otherwise
run the accumulate/flush step on the paragraph itself. -/
def stepParagraph (countT : String → ℕ) (chunk_size overlap : ℕ)
    (st : ChunkSt) (para : String) : ChunkSt :=
  let p := pyStrip para
  if p = "" then st
  else
    let para_tokens := countT p
    if chunk_size < para_tokens then
      (pySplitOn p ". ").foldl (stepPiece countT chunk_size overlap " " ". ") st
    else
      stepPiece countT chunk_size overlap "\n\n" "\n\n" st p

/-- `EmbeddingService.chunk_text`. -/
def chunk_text (countT : String → ℕ) (chunk_size overlap : ℕ)
    (text : String) : List ChunkPiece :=
  let st := (pySplitOn text "\n\n").foldl (stepParagraph countT chunk_size overlap)
    ⟨[], "", 0, 0⟩
  if pyStrip st.current_chunk ≠ "" then
    st.chunks ++ [⟨pyStrip st.current_chunk, st.chunk_index, st.current_tokens⟩]
  else st.chunks

/-- The loop invariant of `chunk_text`: chunk indices are exactly
`0, 1, ..., n-1` in list order, the running index equals the number of
chunks flushed so far, and every flushed content is already
whitespace-trimmed. -/
def ChunkInv (st : ChunkSt) : Prop :=
  st.chunks.map ChunkPiece.index = List.range st.chunks.length ∧
  st.chunk_index = st.chunks.length ∧
  ∀ c ∈ st.chunks, pyStrip c.content = c.content

/-! ## IngestionPipeline (`DocumentProcessor`, `api/services/ingest.py`)

The relational store (Postgres rows) and the vector store (Qdrant
points) are explicit lists in a `Store` value.  External collaborators
become parameters: `hashFn` for `hashlib.sha256(...).hexdigest()`,
`countT` for tiktoken, `embedFn` for the embedding backend (vectors are
opaque `ℕ` tags), `llmResult` for the outcome of
`LLMService.extract_structure` (`none` = the call raised and
`_structure_content` degraded to an empty structure).  Timestamps and
fresh row ids are `ℕ` parameters.  Random chunk-row UUIDs
(`uuid.uuid4()`) are not modelled: no behaviour observed by the claims
reads them.  NOTE: `ingest.py` never imports `settings`, so the real
`_process_chunks` raises `NameError` at its first use of
`settings.max_chunks_per_doc` and every fresh ingestion fails after the
Document commit.  Two variants are embedded: `process_document_run` is
the faithful one (the fresh path ends in that `NameError`), while
`process_document`/`process_chunks` resolve the unbound name to the
configuration value (parameter `maxChunks`) solely to exhibit, for the
truncation claim, what the truncation code would do — the import defect
itself is reported with that claim. -/

/-- `DocumentStructured` (pydantic schema). -/
structure DocumentStructured where
  title : Option String
  root_cause : Option String
  steps : List String
  risks : List String
  needs_clarification : Bool
  questions : List String
deriving DecidableEq, Repr

/-- `DocumentStructured()` with every field defaulted. -/
def emptyStructured : DocumentStructured := ⟨none, none, [], [], false, []⟩

/-- Python truthiness of an `Optional[str]`. -/
def optTruthy : Option String → Bool
  | none => false
  | some s => s ≠ ""

/-- `DocumentMetadata` (pydantic schema; `scope` defaults to
`"STANDARD"`). -/
structure DocumentMetadata where
  tenant_slug : String
  scope : String
  system : Option String
  topic : Option String
  tcodes : List String
  tables : List String
  tags : List String
deriving DecidableEq, Repr

/-- `DocumentProcessor._extract_metadata`. -/
def extract_metadata (text : String) : DocumentMetadata :=
  { tenant_slug := ""
    scope := "STANDARD"
    system := infer_system (extract_tcodes text) (extract_tables text)
    topic := infer_topic (extract_tcodes text) (extract_tables text) text
    tcodes := extract_tcodes text
    tables := extract_tables text
    tags := [] }

/-- Python `a or b` on strings. -/
def orStr (a b : String) : String := if a ≠ "" then a else b

/-- Python `a or b` on `Optional[str]`. -/
def orOpt : Option String → Option String → Option String
  | some s, e => if s = "" then e else some s
  | none, e => e

/-- `DocumentProcessor._merge_metadata` (caller-supplied non-empty
fields win; list fields take the set union, embedded as deduplicated
concatenation). -/
def merge_metadata (extracted : DocumentMetadata)
    (provided : Option DocumentMetadata) : DocumentMetadata :=
  match provided with
  | none => extracted
  | some p =>
    { tenant_slug := orStr p.tenant_slug extracted.tenant_slug
      scope := orStr p.scope extracted.scope
      system := orOpt p.system extracted.system
      topic := orOpt p.topic extracted.topic
      tcodes := (p.tcodes ++ extracted.tcodes).dedup
      tables := (p.tables ++ extracted.tables).dedup
      tags := p.tags }

/-- `DocumentProcessor._structure_content`: a caller-supplied structure
wins; otherwise the generation interface's extraction, degrading to the
empty structure when that call raised. -/
def structure_content (provided : Option DocumentStructured)
    (llmResult : Option DocumentStructured) : DocumentStructured :=
  match provided with
  | some s => s
  | none => llmResult.getD emptyStructured

/-- A `documents` row (`api/db/models.py`). -/
structure DocumentRec where
  id : ℕ
  tenant_slug : String
  scope : String
  type : String
  system : Option String
  topic : Option String
  tcodes : List String
  tables : List String
  title : Option String
  root_cause : Option String
  steps : List String
  risks : List String
  tags : List String
  source : Option String
  version : ℕ
  hash : String
  created_at : ℕ
  created_by : ℕ
deriving DecidableEq, Repr

/-- A `chunks` row (`api/db/models.py`; the random UUID primary key is
omitted, see the section comment). -/
structure ChunkRec where
  document_id : ℕ
  chunk_index : ℕ
  content : String
  token_count : ℕ
  qdrant_point_id : String
deriving DecidableEq, Repr

/-- A Qdrant point as upserted by `_process_chunks` (vector abstracted
to an opaque tag). -/
structure VPointRec where
  id : String
  vector : ℕ
  payload_tenant : String
  payload_scope : String
  payload_system : Option String
  payload_topic : Option String
  payload_tcodes : List String
  payload_tables : List String
  payload_date : ℕ
  payload_source : Option String
  payload_doc_id : ℕ
  payload_chunk_index : ℕ
  payload_content : String
deriving DecidableEq, Repr

/-- The two durable stores threaded through ingestion. -/
structure Store where
  documents : List DocumentRec
  chunks : List ChunkRec
  points : List VPointRec
deriving DecidableEq, Repr

/-- The `DocumentIngest` request (pydantic schema); `text` is the
non-`None` case (`process_document` raises before doing anything when
it is `None`). -/
structure DocumentIngest where
  tenant_slug : String
  scope : Option String
  type : String
  text : String
  metadata : Option DocumentMetadata
  structured : Option DocumentStructured
  source : Option String
  force_scope : Bool
deriving DecidableEq, Repr

/-- The `DocumentResponse` fields produced by `process_document`. -/
structure DocumentResponse where
  id : ℕ
  tenant_slug : String
  scope : String
  type : String
  title : Option String
  system : Option String
  topic : Option String
  tcodes : List String
  tables : List String
  version : ℕ
  chunks_count : ℕ
  created_at : ℕ
  warnings : List String
deriving DecidableEq, Repr

/-- `DocumentProcessor._check_duplicate`: the row with the same
`(hash, tenant_slug)` pair.  (`scalar_one_or_none` raises when several
rows match; the embedding returns the first, covering the at-most-one
case the query is built for.) -/
def check_duplicate (content_hash : String) (tenant_slug : String)
    (docs : List DocumentRec) : Option DocumentRec :=
  docs.find? (fun d => d.hash = content_hash && d.tenant_slug = tenant_slug)

/-- The in-place update of `DocumentProcessor._handle_duplicate`
(lines 286-299): bump `version` and overwrite structured fields only
when the new structure carries a non-empty title or root cause that
differs from the stored one. -/
def handle_duplicate_doc (existing : DocumentRec)
    (new_structure : DocumentStructured) : DocumentRec :=
  if (optTruthy new_structure.title ∧ new_structure.title ≠ existing.title)
      ∨ (optTruthy new_structure.root_cause
          ∧ new_structure.root_cause ≠ existing.root_cause) then
    { existing with
      version := existing.version + 1
      title := if optTruthy new_structure.title then new_structure.title
               else existing.title
      root_cause := if optTruthy new_structure.root_cause then
                      new_structure.root_cause
                    else existing.root_cause
      steps := if new_structure.steps ≠ [] then new_structure.steps
               else existing.steps
      risks := if new_structure.risks ≠ [] then new_structure.risks
               else existing.risks }
  else existing

/-- `DocumentProcessor._create_document` (fresh row, `version`
defaulting to 1). -/
def create_document (req : DocumentIngest) (meta : DocumentMetadata)
    (structured : DocumentStructured) (scope : String) (content_hash : String)
    (user_id newId now : ℕ) : DocumentRec :=
  { id := newId
    tenant_slug := req.tenant_slug
    scope := scope
    type := req.type
    system := meta.system
    topic := meta.topic
    tcodes := meta.tcodes
    tables := meta.tables
    title := structured.title
    root_cause := structured.root_cause
    steps := structured.steps
    risks := structured.risks
    tags := meta.tags
    source := req.source
    version := 1
    hash := content_hash
    created_at := now
    created_by := user_id }

/-- Qdrant upsert of one point: replace the point with the same id, or
append. -/
def upsertOne (pts : List VPointRec) (p : VPointRec) : List VPointRec :=
  if pts.any (fun q => q.id = p.id) then
    pts.map (fun q => if q.id = p.id then p else q)
  else pts ++ [p]

/-- Qdrant upsert of a batch of points. -/
def upsertPoints (pts : List VPointRec) (new : List VPointRec) : List VPointRec :=
  new.foldl upsertOne pts

/-- The chunk list of `_process_chunks` after truncation to the
configured ceiling (`chunks_data[:settings.max_chunks_per_doc]`). -/
def truncatedChunks (countT : String → ℕ) (chunk_size overlap maxChunks : ℕ)
    (text : String) : List ChunkPiece :=
  let cd := chunk_text countT chunk_size overlap text
  if maxChunks < cd.length then cd.take maxChunks else cd

/-- The Qdrant points built by `_process_chunks` for a document. -/
def pointsOf (embedFn : String → ℕ) (doc : DocumentRec)
    (chunks_data : List ChunkPiece) : List VPointRec :=
  chunks_data.enum.map (fun ic =>
    { id := toString doc.id ++ "_" ++ toString ic.1
      vector := embedFn ic.2.content
      payload_tenant := doc.tenant_slug
      payload_scope := doc.scope
      payload_system := doc.system
      payload_topic := doc.topic
      payload_tcodes := doc.tcodes
      payload_tables := doc.tables
      payload_date := doc.created_at
      payload_source := doc.source
      payload_doc_id := doc.id
      payload_chunk_index := ic.2.index
      payload_content := pyTake ic.2.content 500 })

/-- The chunk rows built by `_process_chunks` for a document. -/
def chunkRecsOf (doc : DocumentRec) (chunks_data : List ChunkPiece) :
    List ChunkRec :=
  chunks_data.enum.map (fun ic =>
    { document_id := doc.id
      chunk_index := ic.2.index
      content := ic.2.content
      token_count := ic.2.token_count
      qdrant_point_id := toString doc.id ++ "_" ++ toString ic.1 })

/-- `DocumentProcessor._process_chunks`: chunk, truncate to the
configured ceiling, embed, upsert one point per chunk keyed
`"{document_id}_{i}"`, persist one chunk row per point; returns the new
store and the reported chunk count. -/
def process_chunks (countT : String → ℕ) (chunk_size overlap maxChunks : ℕ)
    (embedFn : String → ℕ) (doc : DocumentRec) (text : String) (st : Store) :
    Store × ℕ :=
  let chunks_data := truncatedChunks countT chunk_size overlap maxChunks text
  (⟨st.documents, st.chunks ++ chunkRecsOf doc chunks_data,
    upsertPoints st.points (pointsOf embedFn doc chunks_data)⟩,
   (chunkRecsOf doc chunks_data).length)

/-- `DocumentProcessor.process_document`: the whole ingestion pipeline
as a state transition on `Store`, returning the updated store and the
`DocumentResponse`. -/
def process_document (hashFn : String → String) (countT : String → ℕ)
    (chunk_size overlap maxChunks : ℕ) (embedFn : String → ℕ)
    (llmResult : Option DocumentStructured) (req : DocumentIngest)
    (user_id newId now : ℕ) (st : Store) : Store × DocumentResponse :=
  let text := req.text
  let extracted := extract_metadata text
  let final_metadata := merge_metadata extracted req.metadata
  let z_objects := detect_z_objects text
  let scope := determine_scope req.scope z_objects req.force_scope
  let structured := structure_content req.structured llmResult
  let warnings := validate_content scope z_objects text
  let content_hash := hashFn text
  match check_duplicate content_hash req.tenant_slug st.documents with
  | some existing_doc =>
    let updated := handle_duplicate_doc existing_doc structured
    let chunks_count :=
      (st.chunks.filter (fun c => c.document_id = existing_doc.id)).length
    (⟨st.documents.map (fun d => if d.id = existing_doc.id then updated else d),
      st.chunks, st.points⟩,
     { id := updated.id
       tenant_slug := updated.tenant_slug
       scope := updated.scope
       type := updated.type
       title := updated.title
       system := updated.system
       topic := updated.topic
       tcodes := updated.tcodes
       tables := updated.tables
       version := updated.version
       chunks_count := chunks_count
       created_at := updated.created_at
       warnings := ["Document already exists, updated version"] })
  | none =>
    let document := create_document req final_metadata structured scope
      content_hash user_id newId now
    let st1 : Store := ⟨st.documents ++ [document], st.chunks, st.points⟩
    let pc := process_chunks countT chunk_size overlap maxChunks embedFn
      document text st1
    (pc.1,
     { id := document.id
       tenant_slug := document.tenant_slug
       scope := document.scope
       type := document.type
       title := document.title
       system := document.system
       topic := document.topic
       tcodes := document.tcodes
       tables := document.tables
       version := document.version
       chunks_count := pc.2
       created_at := document.created_at
       warnings := warnings })

/-- `DocumentProcessor.process_document` as the source actually runs:
identical to `process_document` up to the duplicate check, but on the
fresh-document path the new Document row is committed (step 9,
`_create_document`) and then `_process_chunks` raises `NameError` at
its first use of the unimported name `settings` (ingest.py line 359) —
after `chunk_text` has run but before any embedding call, vector upsert
or chunk row.  Returns the store as the pipeline leaves it together
with either the response or the raised error. -/
def process_document_run (hashFn : String → String) (countT : String → ℕ)
    (chunk_size overlap : ℕ) (llmResult : Option DocumentStructured)
    (req : DocumentIngest) (user_id newId now : ℕ) (st : Store) :
    Store × Except String DocumentResponse :=
  let text := req.text
  let extracted := extract_metadata text
  let final_metadata := merge_metadata extracted req.metadata
  let z_objects := detect_z_objects text
  let scope := determine_scope req.scope z_objects req.force_scope
  let structured := structure_content req.structured llmResult
  let _warnings := validate_content scope z_objects text
  let content_hash := hashFn text
  match check_duplicate content_hash req.tenant_slug st.documents with
  | some existing_doc =>
    let updated := handle_duplicate_doc existing_doc structured
    let chunks_count :=
      (st.chunks.filter (fun c => c.document_id = existing_doc.id)).length
    (⟨st.documents.map (fun d => if d.id = existing_doc.id then updated else d),
      st.chunks, st.points⟩,
     Except.ok
       { id := updated.id
         tenant_slug := updated.tenant_slug
         scope := updated.scope
         type := updated.type
         title := updated.title
         system := updated.system
         topic := updated.topic
         tcodes := updated.tcodes
         tables := updated.tables
         version := updated.version
         chunks_count := chunks_count
         created_at := updated.created_at
         warnings := ["Document already exists, updated version"] })
  | none =>
    let document := create_document req final_metadata structured scope
      content_hash user_id newId now
    let _chunks_data := chunk_text countT chunk_size overlap text
    (⟨st.documents ++ [document], st.chunks, st.points⟩,
     Except.error "NameError: name 'settings' is not defined")

/-- Decidable equality for raised-or-returned outcomes (structural, so
closed statements about them evaluate in the kernel). -/
instance {ε α : Type} [DecidableEq ε] [DecidableEq α] :
    DecidableEq (Except ε α)
  | Except.ok a, Except.ok b =>
    if h : a = b then .isTrue (congrArg Except.ok h)
    else .isFalse (fun hc => h (Except.ok.inj hc))
  | Except.error a, Except.error b =>
    if h : a = b then .isTrue (congrArg Except.error h)
    else .isFalse (fun hc => h (Except.error.inj hc))
  | Except.ok _, Except.error _ => .isFalse (fun hc => Except.noConfusion hc)
  | Except.error _, Except.ok _ => .isFalse (fun hc => Except.noConfusion hc)

/-! ## Concrete scenarios

Closed inputs used to exercise the pipeline: a word-count stand-in for
the external tokenizer, a double-ingest scenario for the deduplication
path, a three-paragraph document for the chunk-ceiling truncation, and
a one-document store for the duplicate-update frame. -/

/-- A concrete tokenizer (word count) standing in for the external
tiktoken collaborator in closed evaluations. -/
def wcTok : String → ℕ := fun s => (pySplitWs s).length

/-- A concrete structure-extraction outcome. -/
def sampleLLM : Option DocumentStructured :=
  some ⟨some "Factura duplicada", some "Doble lectura", ["Revisar"], [], false, []⟩

/-- A concrete ingestion request. -/
def sampleReq : DocumentIngest :=
  { tenant_slug := "acme", scope := none, type := "incidencia",
    text := "La factura del contrato sale duplicada tras la lectura mensual del contador",
    metadata := none, structured := none, source := some "manual",
    force_scope := false }

/-- First ingestion of `sampleReq` into an empty store, as the source
actually runs it (the fresh path raises `NameError`). -/
def sampleRunE1 : Store × Except String DocumentResponse :=
  process_document_run id wcTok 800 150 sampleLLM sampleReq 1 10 100
    ⟨[], [], []⟩

/-- Second ingestion of the identical request, as the source actually
runs it. -/
def sampleRunE2 : Store × Except String DocumentResponse :=
  process_document_run id wcTok 800 150 sampleLLM sampleReq 1 11 200
    sampleRunE1.1

/-- A request whose text chunks into three pieces under `wcTok` with
chunk size 3. -/
def truncReq : DocumentIngest :=
  { tenant_slug := "acme", scope := none, type := "doc",
    text := "aaaaaaa bbbbbbb ccccccc\n\nddddddd eeeeeee fffffff\n\nggggggg hhhhhhh iiiiiii",
    metadata := none, structured := none, source := none, force_scope := false }

/-- Ingestion of `truncReq` with a chunk ceiling of 2. -/
def truncRun : Store × DocumentResponse :=
  process_document id wcTok 3 0 2 (fun _ => 0) none truncReq 1 7 0 ⟨[], [], []⟩

/-- A stored document whose hash (identity `hashFn`) matches
`frameReq`'s text. -/
def frameDoc : DocumentRec :=
  { id := 3, tenant_slug := "acme", scope := "CLIENT_SPECIFIC", type := "doc",
    system := some "IS-U", topic := some "billing", tcodes := ["EC85"],
    tables := [], title := some "Nota", root_cause := none, steps := [],
    risks := [], tags := [], source := some "manual", version := 1,
    hash := "La lectura del contador mensual llega duplicada al sistema",
    created_at := 0, created_by := 1 }

/-- A request that re-ingests `frameDoc`'s content. -/
def frameReq : DocumentIngest :=
  { tenant_slug := "acme", scope := none, type := "doc",
    text := "La lectura del contador mensual llega duplicada al sistema",
    metadata := none, structured := none, source := none, force_scope := false }

/-! ## Theorems -/

/-- Claim C1, evaluated at the failing input: for the tenant `"acme"`
named by the claim, the router builds the intended two-element filter
list `["acme", "STANDARD"]`, but `QdrantService.search` wraps that list
in `MatchValue`, whose construction raises a `ValidationError` under
qdrant-client 1.7.0 — the search fails before anything is sent, so the
two-element tenant filter is never effective; only the `"STANDARD"`
tenant's one-element filter is actually constructed (as the single
exact-match value) and sent. -/
theorem tenant_filter_not_sent :
    tenant_filter "acme" = ["acme", "STANDARD"] ∧
    tenantCondition "acme" = Except.error "ValidationError" ∧
    tenantCondition "STANDARD" = Except.ok "STANDARD" := by decide

/-- Claim C2: the six-row scope-resolution table of
`DocumentProcessor._determine_scope`, with "has custom objects"
embodied by a non-empty detected Z-object list. -/
theorem scope_resolution_table (zs : List String) (force : Bool) :
    determine_scope (some "STANDARD") [] force = "STANDARD" ∧
    (zs ≠ [] → determine_scope (some "STANDARD") zs false = "CLIENT_SPECIFIC") ∧
    (zs ≠ [] → determine_scope (some "STANDARD") zs true = "STANDARD") ∧
    determine_scope (some "CLIENT_SPECIFIC") zs force = "CLIENT_SPECIFIC" ∧
    determine_scope none [] force = "STANDARD" ∧
    (zs ≠ [] → determine_scope none zs force = "CLIENT_SPECIFIC") := by
  refine ⟨by simp [determine_scope], ?_, ?_, by simp [determine_scope], by simp [determine_scope], ?_⟩
  all_goals intro h
  all_goals cases zs with
  | nil => exact absurd rfl h
  | cons a t => simp [determine_scope]

/-- Witness for C2 on a concrete Z-object list. -/
theorem scope_resolution_table_witness :
    determine_scope (some "STANDARD") ["ZREP"] false = "CLIENT_SPECIFIC" ∧
    determine_scope (some "STANDARD") ["ZREP"] true = "STANDARD" ∧
    determine_scope none ["ZREP"] true = "CLIENT_SPECIFIC" :=
  ⟨(scope_resolution_table ["ZREP"] false).2.1 (by decide),
   (scope_resolution_table ["ZREP"] true).2.2.1 (by decide),
   (scope_resolution_table ["ZREP"] true).2.2.2.2.2 (by decide)⟩

/-- Counterexample for C3: on a 67-character text containing the custom
object `ZREPORT`, requesting `STANDARD` without the force flag yields
`CLIENT_SPECIFIC` with an *empty* warnings list (the downgrade is
silent), while requesting `STANDARD` with the force flag yields
`STANDARD` with a *non-empty* warnings list — the opposite of the
claimed warning behaviour on both sides. -/
theorem downgrade_warning_cex :
    determine_scope (some "STANDARD")
      (detect_z_objects
        "El desarrollo ZREPORT recalcula importes de factura en este proceso")
      false = "CLIENT_SPECIFIC" ∧
    ingestWarnings
      "El desarrollo ZREPORT recalcula importes de factura en este proceso"
      (some "STANDARD") false = [] ∧
    determine_scope (some "STANDARD")
      (detect_z_objects
        "El desarrollo ZREPORT recalcula importes de factura en este proceso")
      true = "STANDARD" ∧
    ingestWarnings
      "El desarrollo ZREPORT recalcula importes de factura en este proceso"
      (some "STANDARD") true =
      ["STANDARD document contains Z objects: ZREPORT"] := by
  refine ⟨by decide, by decide, by decide, by decide⟩

/-- Claim C3 as amended: for a text of unexceptional length (50 to
50000 characters) containing a custom-object token, requesting
`STANDARD` without the force flag yields `CLIENT_SPECIFIC` and an
*empty* warnings list — the downgrade is not surfaced — while
requesting `STANDARD` with the force flag yields `STANDARD` and a
*non-empty* warnings list (the Z-objects warning fires exactly when the
final scope stays `STANDARD`). -/
theorem downgrade_warning_amended (text : String)
    (hz : detect_z_objects text ≠ [])
    (hshort : 50 ≤ text.length) (hlong : text.length ≤ 50000) :
    (determine_scope (some "STANDARD") (detect_z_objects text) false =
        "CLIENT_SPECIFIC" ∧
      ingestWarnings text (some "STANDARD") false = []) ∧
    (determine_scope (some "STANDARD") (detect_z_objects text) true =
        "STANDARD" ∧
      ingestWarnings text (some "STANDARD") true ≠ []) := by
  have hzl : ¬ detect_z_objects text = [] := hz
  have hsc : determine_scope (some "STANDARD") (detect_z_objects text) false =
      "CLIENT_SPECIFIC" := by
    cases hc : detect_z_objects text with
    | nil => exact absurd hc hzl
    | cons a t => simp [determine_scope]
  have hsf : determine_scope (some "STANDARD") (detect_z_objects text) true =
      "STANDARD" := by
    simp [determine_scope]
  refine ⟨⟨hsc, ?_⟩, hsf, ?_⟩
  · unfold ingestWarnings
    rw [hsc]
    unfold validate_content
    rw [if_neg (by simp), if_neg (by omega), if_neg (by omega)]
    rfl
  · unfold ingestWarnings
    rw [hsf]
    unfold validate_content
    rw [if_pos ⟨rfl, hz⟩]
    simp

/-- Witness for C3 (amended) on the counterexample text. -/
theorem downgrade_warning_amended_witness :
    (determine_scope (some "STANDARD")
        (detect_z_objects
          "El desarrollo ZREPORT recalcula importes de factura en este proceso")
        false = "CLIENT_SPECIFIC" ∧
      ingestWarnings
        "El desarrollo ZREPORT recalcula importes de factura en este proceso"
        (some "STANDARD") false = []) ∧
    (determine_scope (some "STANDARD")
        (detect_z_objects
          "El desarrollo ZREPORT recalcula importes de factura en este proceso")
        true = "STANDARD" ∧
      ingestWarnings
        "El desarrollo ZREPORT recalcula importes de factura en este proceso"
        (some "STANDARD") true ≠ []) :=
  downgrade_warning_amended
    "El desarrollo ZREPORT recalcula importes de factura en este proceso"
    (by decide) (by decide) (by decide)

/-- Claim C7: when the generation call raises, the chat response is the
fixed (non-empty) apology with confidence exactly 0 and
`needs_clarification` true; when it returns an answer,
`needs_clarification` is true exactly when the computed confidence is
below the fixed threshold 0.6. -/
theorem chat_failure_and_threshold (query answer : String)
    (contextChunks : List String) :
    (generate_chat_response none query contextChunks).answer = APOLOGY_ANSWER ∧
    APOLOGY_ANSWER ≠ "" ∧
    (generate_chat_response none query contextChunks).confidence = 0 ∧
    (generate_chat_response none query contextChunks).needs_clarification = true ∧
    ((generate_chat_response (some answer) query contextChunks).needs_clarification
        = true ↔
      calculate_confidence query contextChunks answer < 3/5) := by
  refine ⟨rfl, by decide, rfl, rfl, ?_⟩
  simp [generate_chat_response]

/-- Counterexample for C6: confidence is *not* monotonically
non-decreasing in the chunk count starting from zero — for a short
hedging answer, one retrieved chunk scores (1/3)·(1/2)·(7/10)·(17/20) =
119/1200 < 1/10, strictly below the zero-chunk score 0.1. -/
theorem confidence_monotone_cex :
    calculate_confidence "q" ["chunk"] "no estoy seguro" <
      calculate_confidence "q" [] "no estoy seguro" := by
  unfold calculate_confidence
  rw [if_neg (show ¬ (["chunk"] : List String).length = 0 by decide),
    if_pos (show ([] : List String).length = 0 from rfl)]
  dsimp only
  rw [if_pos (show (pySplitWs "no estoy seguro").length < 20 by decide),
    if_neg (show ¬ (SPEC_CODES.any fun c =>
      strContainsSub (pyUpper "no estoy seguro") c) = true by decide),
    if_pos (show (HEDGE_PHRASES.any fun p =>
      strContainsSub (pyLower "no estoy seguro") p) = true by decide)]
  norm_num [min_def, max_def]

/-- Claim C6 as amended: holding query and answer fixed, the confidence
is monotonically non-decreasing in the retrieved-chunk count *from one
chunk on*, constant from the saturation point of 3 chunks, exactly 0.1
at zero chunks, and always within `[0, 1]`; going from zero chunks to
one may decrease it (see the counterexample). -/
theorem confidence_props (query answer : String) (l1 l2 : List String)
    (h1 : 1 ≤ l1.length) (h2 : l1.length ≤ l2.length) :
    calculate_confidence query l1 answer ≤ calculate_confidence query l2 answer ∧
    (3 ≤ l1.length →
      calculate_confidence query l1 answer = calculate_confidence query l2 answer) ∧
    calculate_confidence query [] answer = 1/10 ∧
    ∀ l : List String, 0 ≤ calculate_confidence query l answer ∧
      calculate_confidence query l answer ≤ 1 := by
  refine ⟨?_, ?_, rfl, ?_⟩
  · unfold calculate_confidence
    rw [if_neg (show ¬ l1.length = 0 by omega),
      if_neg (show ¬ l2.length = 0 by omega)]
    dsimp only
    refine min_le_min (max_le_max ?_ le_rfl) le_rfl
    refine mul_le_mul_of_nonneg_right ?_ (by norm_num)
    refine mul_le_mul_of_nonneg_right ?_ (by split <;> norm_num)
    refine mul_le_mul_of_nonneg_right ?_ (by split <;> norm_num)
    refine mul_le_mul_of_nonneg_right ?_ (by split <;> (try split) <;> norm_num)
    refine min_le_min ?_ le_rfl
    have hc : (l1.length : ℚ) ≤ (l2.length : ℚ) := by exact_mod_cast h2
    linarith
  · intro h3
    unfold calculate_confidence
    rw [if_neg (show ¬ l1.length = 0 by omega),
      if_neg (show ¬ l2.length = 0 by omega)]
    dsimp only
    have e1 : min ((l1.length : ℚ) / 3) 1 = 1 := by
      rw [min_eq_right]
      rw [le_div_iff₀ (by norm_num : (0:ℚ) < 3)]
      have : (3:ℚ) ≤ (l1.length : ℚ) := by exact_mod_cast h3
      linarith
    have e2 : min ((l2.length : ℚ) / 3) 1 = 1 := by
      rw [min_eq_right]
      rw [le_div_iff₀ (by norm_num : (0:ℚ) < 3)]
      have : (3:ℚ) ≤ (l2.length : ℚ) := by exact_mod_cast h3.trans h2
      linarith
    rw [e1, e2]
  · intro l
    unfold calculate_confidence
    split
    · norm_num
    · exact ⟨le_min (le_max_right _ _) (by norm_num), min_le_right _ _⟩

/-- Witness for C6 (amended) at concrete chunk lists of lengths 3 and
4. -/
theorem confidence_props_witness :
    calculate_confidence "q" ["a", "b", "c"] "ok" ≤
      calculate_confidence "q" ["a", "b", "c", "d"] "ok" ∧
    calculate_confidence "q" ["a", "b", "c"] "ok" =
      calculate_confidence "q" ["a", "b", "c", "d"] "ok" ∧
    calculate_confidence "q" [] "ok" = 1/10 ∧
    (0 ≤ calculate_confidence "q" ["a"] "ok" ∧
      calculate_confidence "q" ["a"] "ok" ≤ 1) := by
  have h := confidence_props "q" "ok" ["a", "b", "c"] ["a", "b", "c", "d"]
    (by decide) (by decide)
  exact ⟨h.1, h.2.1 (by decide), h.2.2.1, h.2.2.2 ["a"]⟩

/-- Claim C9: any text containing the word tokens `EC85` and `EABLG`
and no custom-object token, ingested with no explicit scope, resolves
to scope `STANDARD`, topic `"billing"` and system `"IS-U"`. -/
theorem billing_scenario (text : String) (force : Bool)
    (h1 : "EC85" ∈ wordTokens text) (_h2 : "EABLG" ∈ wordTokens text)
    (hz : detect_z_objects text = []) :
    determine_scope none (detect_z_objects text) force = "STANDARD" ∧
    infer_topic (extract_tcodes text) (extract_tables text) text = some "billing" ∧
    infer_system (extract_tcodes text) (extract_tables text) = some "IS-U" := by
  have htc : "EC85" ∈ extract_tcodes text := by
    unfold extract_tcodes
    rw [List.mem_dedup]
    exact List.mem_filter.mpr ⟨h1, by decide⟩
  refine ⟨?_, ?_, ?_⟩
  · rw [hz]
    rfl
  · unfold infer_topic
    have hfind : TOPIC_MAPPING.find?
        (fun tm => tm.2.any (fun tc => (extract_tcodes text).contains tc)) =
        some ("billing", ["EC85", "EC86", "EC87", "EABL", "EABLG"]) := by
      rw [TOPIC_MAPPING]
      refine List.find?_cons_of_pos _ ?_
      simp only [List.any_eq_true]
      exact ⟨"EC85", by simp, by simpa using htc⟩
    rw [hfind]
  · unfold infer_system
    rw [if_pos (Or.inl (List.ne_nil_of_mem htc))]

/-- Witness for C9 on a concrete billing text. -/
theorem billing_scenario_witness :
    determine_scope none
      (detect_z_objects "Problema de facturacion con EC85 en tabla EABLG")
      false = "STANDARD" ∧
    infer_topic (extract_tcodes "Problema de facturacion con EC85 en tabla EABLG")
      (extract_tables "Problema de facturacion con EC85 en tabla EABLG")
      "Problema de facturacion con EC85 en tabla EABLG" = some "billing" ∧
    infer_system (extract_tcodes "Problema de facturacion con EC85 en tabla EABLG")
      (extract_tables "Problema de facturacion con EC85 en tabla EABLG") =
      some "IS-U" :=
  billing_scenario "Problema de facturacion con EC85 en tabla EABLG" false
    (by decide) (by decide) (by decide)

/-! ### Chunker invariants (claim C10) -/

theorem dropWhile_self_idem (p : Char → Bool) (l : List Char) :
    (l.dropWhile p).dropWhile p = l.dropWhile p := by
  induction l with
  | nil => rfl
  | cons a t ih =>
    by_cases h : p a
    · simp [List.dropWhile_cons, h, ih]
    · simp [List.dropWhile_cons, h]

theorem dropWhile_head_not (p : Char → Bool) (l : List Char) (a : Char)
    (t : List Char) (h : l.dropWhile p = a :: t) : p a = false := by
  induction l with
  | nil => simp at h
  | cons b s ih =>
    rw [List.dropWhile_cons] at h
    split at h
    · exact ih h
    · next hb =>
      injection h with hba _
      subst hba
      exact Bool.eq_false_iff.mpr hb

theorem dropWhile_suffix_self (p : Char → Bool) (l : List Char) :
    l.dropWhile p <:+ l := by
  induction l with
  | nil => exact List.suffix_rfl
  | cons a t ih =>
    by_cases h : p a
    · rw [List.dropWhile_cons, if_pos h]
      exact ih.trans (List.suffix_cons a t)
    · rw [List.dropWhile_cons, if_neg h]

theorem pyStripList_idem (l : List Char) :
    pyStripList (pyStripList l) = pyStripList l := by
  have key : ((l.dropWhile isPySpace).reverse.dropWhile
      isPySpace).reverse.dropWhile isPySpace =
      ((l.dropWhile isPySpace).reverse.dropWhile isPySpace).reverse := by
    have hpre : ((l.dropWhile isPySpace).reverse.dropWhile isPySpace).reverse <+:
        l.dropWhile isPySpace := by
      have h2 := List.reverse_prefix.mpr
        (dropWhile_suffix_self isPySpace (l.dropWhile isPySpace).reverse)
      rwa [List.reverse_reverse] at h2
    cases hzr : ((l.dropWhile isPySpace).reverse.dropWhile isPySpace).reverse with
    | nil => simp [hzr]
    | cons c t =>
      rw [hzr] at hpre
      obtain ⟨s, hs⟩ := hpre
      have hc : isPySpace c = false :=
        dropWhile_head_not isPySpace l c (t ++ s) (by rw [← hs]; rfl)
      rw [List.dropWhile_cons, if_neg (by simp [hc])]
  unfold pyStripList
  rw [key, List.reverse_reverse, dropWhile_self_idem]

theorem pyStrip_idem (s : String) : pyStrip (pyStrip s) = pyStrip s :=
  congrArg String.mk (pyStripList_idem s.data)

theorem foldl_preserve {α σ : Type} (P : σ → Prop) (f : σ → α → σ)
    (hf : ∀ s a, P s → P (f s a)) :
    ∀ (l : List α) (s : σ), P s → P (l.foldl f s) := by
  intro l
  induction l with
  | nil => intro s hs; exact hs
  | cons a t ih => intro s hs; exact ih _ (hf s a hs)

theorem stepPiece_inv (countT : String → ℕ) (cs o : ℕ) (ovJoin accJoin : String)
    (st : ChunkSt) (piece : String) (h : ChunkInv st) :
    ChunkInv (stepPiece countT cs o ovJoin accJoin st piece) := by
  obtain ⟨h1, h2, h3⟩ := h
  unfold stepPiece
  dsimp only
  have hflush : ChunkInv ⟨st.chunks ++
      [⟨pyStrip st.current_chunk, st.chunk_index, st.current_tokens⟩],
      "", 0, st.chunk_index + 1⟩ := by
    refine ⟨?_, ?_, ?_⟩
    · simp [h1, h2, List.range_succ]
    · simp [h2]
    · intro c hc
      rcases List.mem_append.mp hc with hc | hc
      · exact h3 c hc
      · simp only [List.mem_singleton] at hc
        subst hc
        exact pyStrip_idem st.current_chunk
  split
  · split
    · exact ⟨hflush.1, hflush.2.1, hflush.2.2⟩
    · exact ⟨hflush.1, hflush.2.1, hflush.2.2⟩
  · split
    · exact ⟨h1, h2, h3⟩
    · exact ⟨h1, h2, h3⟩

theorem stepParagraph_inv (countT : String → ℕ) (cs o : ℕ) (st : ChunkSt)
    (para : String) (h : ChunkInv st) :
    ChunkInv (stepParagraph countT cs o st para) := by
  unfold stepParagraph
  dsimp only
  split
  · exact h
  · split
    · exact foldl_preserve ChunkInv _
        (fun s a hs => stepPiece_inv countT cs o " " ". " s a hs) _ _ h
    · exact stepPiece_inv countT cs o "\n\n" "\n\n" st (pyStrip para) h

/-- Claim C10 as amended: for every tokenizer, size/overlap
configuration and input text, the chunks carry indices exactly
`0, 1, ..., n-1` in list order with no gaps or repeats, every chunk's
content is whitespace-trimmed (`pyStrip`-fixed — but possibly *empty*
when an oversized paragraph is sentence-split, see the counterexample),
and an input whose paragraphs are all whitespace-only (in particular an
empty or all-whitespace input) yields the empty chunk list. -/
theorem chunk_invariants (countT : String → ℕ) (cs o : ℕ) (text : String) :
    (chunk_text countT cs o text).map ChunkPiece.index =
      List.range (chunk_text countT cs o text).length ∧
    (∀ c ∈ chunk_text countT cs o text, pyStrip c.content = c.content) ∧
    ((∀ p ∈ pySplitOn text "\n\n", pyStrip p = "") →
      chunk_text countT cs o text = []) := by
  have hinv : ChunkInv ((pySplitOn text "\n\n").foldl
      (stepParagraph countT cs o) ⟨[], "", 0, 0⟩) :=
    foldl_preserve ChunkInv _
      (fun s a hs => stepParagraph_inv countT cs o s a hs) _ _
      ⟨rfl, rfl, by simp⟩
  obtain ⟨h1, h2, h3⟩ := hinv
  refine ⟨?_, ?_, ?_⟩
  · unfold chunk_text
    dsimp only
    split
    · simp [h1, h2, List.range_succ]
    · exact h1
  · unfold chunk_text
    dsimp only
    split
    · intro c hc
      rcases List.mem_append.mp hc with hc | hc
      · exact h3 c hc
      · simp only [List.mem_singleton] at hc
        subst hc
        exact pyStrip_idem _
    · exact h3
  · intro hall
    have hskip : ∀ (l : List String) (st : ChunkSt),
        (∀ p ∈ l, pyStrip p = "") →
        l.foldl (stepParagraph countT cs o) st = st := by
      intro l
      induction l with
      | nil => intro st _; rfl
      | cons a t ih =>
        intro st hl
        rw [List.foldl_cons,
          show stepParagraph countT cs o st a = st by
            unfold stepParagraph
            rw [if_pos (hl a (by simp))]]
        exact ih st (fun p hp => hl p (by simp [hp]))
    unfold chunk_text
    dsimp only
    rw [hskip _ _ hall]
    simp [pyStrip, pyStripList]

/-- Witness for C10 (amended): a whitespace-only input yields no
chunks. -/
theorem chunk_invariants_witness :
    chunk_text String.length 10 3 " \n\n\t \n \n\n " = [] :=
  (chunk_invariants String.length 10 3 " \n\n\t \n \n\n ").2.2 (by decide)

/-- Counterexample for C10: with the character-count tokenizer, chunk
size 10 and overlap 3, the input `". \t. abcdefghijklmnop"` (a single
oversized paragraph whose sentence split yields a whitespace-only
piece) produces a first chunk whose content is the *empty* string — the
chunker can emit chunks with empty stripped content. -/
theorem chunk_nonempty_cex :
    (chunk_text String.length 10 3 ". \t. abcdefghijklmnop").map
      ChunkPiece.content = ["", "abcdefghijklmnop"] := by decide

/-! ### Deduplication and duplicate-update frame (claims C4, C5, C8) -/

theorem check_duplicate_append_none (h : String) (slug : String)
    (docs : List DocumentRec) (d : DocumentRec)
    (hnone : check_duplicate h slug docs = none)
    (hd : d.hash = h ∧ d.tenant_slug = slug) :
    check_duplicate h slug (docs ++ [d]) = some d := by
  unfold check_duplicate at hnone ⊢
  rw [List.find?_append, hnone]
  simp [hd.1, hd.2]

theorem handle_duplicate_doc_noop (ex : DocumentRec) (s : DocumentStructured)
    (ht : ex.title = s.title) (hr : ex.root_cause = s.root_cause) :
    handle_duplicate_doc ex s = ex := by
  unfold handle_duplicate_doc
  rw [if_neg]
  rintro (⟨_, hne⟩ | ⟨_, hne⟩)
  · exact hne ht.symm
  · exact hne hr.symm

theorem handle_duplicate_doc_frame (ex : DocumentRec) (s : DocumentStructured) :
    (handle_duplicate_doc ex s).id = ex.id ∧
    (handle_duplicate_doc ex s).tenant_slug = ex.tenant_slug ∧
    (handle_duplicate_doc ex s).scope = ex.scope ∧
    (handle_duplicate_doc ex s).type = ex.type ∧
    (handle_duplicate_doc ex s).system = ex.system ∧
    (handle_duplicate_doc ex s).topic = ex.topic ∧
    (handle_duplicate_doc ex s).tcodes = ex.tcodes ∧
    (handle_duplicate_doc ex s).tables = ex.tables ∧
    (handle_duplicate_doc ex s).tags = ex.tags ∧
    (handle_duplicate_doc ex s).source = ex.source ∧
    (handle_duplicate_doc ex s).hash = ex.hash ∧
    (handle_duplicate_doc ex s).created_at = ex.created_at ∧
    (handle_duplicate_doc ex s).created_by = ex.created_by ∧
    ((handle_duplicate_doc ex s).version = ex.version ∨
      (handle_duplicate_doc ex s).version = ex.version + 1) := by
  unfold handle_duplicate_doc
  split <;> simp

/-- Counterexample for C4: ingesting the same text twice (identical
request and identical structure-extraction outcome), as the source
actually runs, leaves exactly one Document whose version is 1, not 2 —
the first call raises `NameError` after committing the row, and the
second call's `_handle_duplicate` bumps the version only when the new
structure carries a *different* non-empty title or root cause. -/
theorem ingest_twice_version_cex :
    sampleRunE1.2 = Except.error "NameError: name 'settings' is not defined" ∧
    sampleRunE2.1.documents.length = 1 ∧
    sampleRunE2.2.toOption.map DocumentResponse.version = some 1 ∧
    sampleRunE2.2.toOption.map DocumentResponse.chunks_count = some 0 := by
  decide

/-- Claim C4 as amended: starting from a store holding no duplicate of
the request and no chunk rows under the fresh document id, ingesting
the same text twice (same request, same structure-extraction outcome)
behaves as follows.  The first call persists exactly one Document but
then raises `NameError` (the unimported `settings` in
`_process_chunks`) before creating any chunk rows, so it reports no
chunk count; the second call finds the duplicate by
`(tenant_slug, hash)`, updates in place creating no second Document,
and returns version 1, unchanged — the version increments only when
the re-submission carries a different non-empty title or root cause —
with a reported chunk count of 0 (the chunk rows the first call never
created). -/
theorem ingest_twice_dedup
    (hashFn : String → String) (countT : String → ℕ) (cs o : ℕ)
    (llm : Option DocumentStructured)
    (req : DocumentIngest) (u n1 n2 t1 t2 : ℕ) (st0 : Store)
    (r1 r2 : Store × Except String DocumentResponse)
    (hr1 : r1 = process_document_run hashFn countT cs o llm req u n1 t1 st0)
    (hr2 : r2 = process_document_run hashFn countT cs o llm req u n2 t2 r1.1)
    (hdup : check_duplicate (hashFn req.text) req.tenant_slug st0.documents = none)
    (hfresh : ∀ c ∈ st0.chunks, c.document_id ≠ n1) :
    r1.1.documents.length = st0.documents.length + 1 ∧
    r1.1.chunks = st0.chunks ∧
    r1.2 = Except.error "NameError: name 'settings' is not defined" ∧
    r2.1.documents.length = r1.1.documents.length ∧
    r2.1.chunks = r1.1.chunks ∧
    r2.2.toOption.map DocumentResponse.version = some 1 ∧
    r2.2.toOption.map DocumentResponse.chunks_count = some 0 := by
  subst hr2
  subst hr1
  simp only [process_document_run, hdup]
  set D := create_document req
    (merge_metadata (extract_metadata req.text) req.metadata)
    (structure_content req.structured llm)
    (determine_scope req.scope (detect_z_objects req.text) req.force_scope)
    (hashFn req.text) u n1 t1 with hDdef
  have hD : check_duplicate (hashFn req.text) req.tenant_slug
      (st0.documents ++ [D]) = some D :=
    check_duplicate_append_none _ _ _ _ hdup
      ⟨by rw [hDdef]; rfl, by rw [hDdef]; rfl⟩
  rw [hD]
  dsimp only
  rw [handle_duplicate_doc_noop D (structure_content req.structured llm)
    (by rw [hDdef]; rfl) (by rw [hDdef]; rfl)]
  have hnil : List.filter (fun c => decide (c.document_id = D.id)) st0.chunks
      = [] := by
    rw [List.filter_eq_nil_iff]
    intro a ha
    simpa [hDdef] using hfresh a ha
  refine ⟨by simp, by simp, by simp, by simp, by simp, ?_, ?_⟩
  · dsimp only [Except.toOption, Option.map]
    rw [hDdef]
    rfl
  · dsimp only [Except.toOption, Option.map]
    rw [hnil]
    rfl

/-- Witness for C4 (amended) on the concrete double-ingest scenario. -/
theorem ingest_twice_dedup_witness :
    sampleRunE1.1.documents.length =
      (⟨[], [], []⟩ : Store).documents.length + 1 ∧
    sampleRunE1.1.chunks = (⟨[], [], []⟩ : Store).chunks ∧
    sampleRunE1.2 = Except.error "NameError: name 'settings' is not defined" ∧
    sampleRunE2.1.documents.length = sampleRunE1.1.documents.length ∧
    sampleRunE2.1.chunks = sampleRunE1.1.chunks ∧
    sampleRunE2.2.toOption.map DocumentResponse.version = some 1 ∧
    sampleRunE2.2.toOption.map DocumentResponse.chunks_count = some 0 :=
  ingest_twice_dedup id wcTok 800 150 sampleLLM sampleReq
    1 10 11 100 200 ⟨[], [], []⟩ sampleRunE1 sampleRunE2 rfl rfl rfl
    (by simp)

/-- Claim C5: on a duplicate hit the pipeline creates no chunk rows and
no vector points and leaves the existing ones untouched; the store
keeps the same number of documents, and the one updated document can
differ from the stored one only in title, root cause, steps, risks and
version (by exactly one bump, if at all) — tenant slug, scope, type,
extracted metadata, tags, source, content hash, creation timestamp and
creator are unchanged. -/
theorem duplicate_update_frame
    (hashFn : String → String) (countT : String → ℕ) (cs o mc : ℕ)
    (embedFn : String → ℕ) (llm : Option DocumentStructured)
    (req : DocumentIngest) (u n t : ℕ) (st : Store) (ex : DocumentRec)
    (hdup : check_duplicate (hashFn req.text) req.tenant_slug st.documents =
      some ex) :
    (process_document hashFn countT cs o mc embedFn llm req u n t st).1.chunks =
      st.chunks ∧
    (process_document hashFn countT cs o mc embedFn llm req u n t st).1.points =
      st.points ∧
    (process_document hashFn countT cs o mc embedFn llm req u n t
        st).1.documents.length = st.documents.length ∧
    ∃ ud : DocumentRec,
      (process_document hashFn countT cs o mc embedFn llm req u n t
          st).1.documents =
        st.documents.map (fun d => if d.id = ex.id then ud else d) ∧
      ud.tenant_slug = ex.tenant_slug ∧ ud.scope = ex.scope ∧
      ud.type = ex.type ∧ ud.system = ex.system ∧ ud.topic = ex.topic ∧
      ud.tcodes = ex.tcodes ∧ ud.tables = ex.tables ∧ ud.tags = ex.tags ∧
      ud.source = ex.source ∧ ud.hash = ex.hash ∧
      ud.created_at = ex.created_at ∧ ud.created_by = ex.created_by ∧
      (ud.version = ex.version ∨ ud.version = ex.version + 1) := by
  simp only [process_document, hdup]
  have hf := handle_duplicate_doc_frame ex (structure_content req.structured llm)
  exact ⟨by simp, by simp, by simp,
    handle_duplicate_doc ex (structure_content req.structured llm), by simp,
    hf.2.1, hf.2.2.1, hf.2.2.2.1, hf.2.2.2.2.1, hf.2.2.2.2.2.1,
    hf.2.2.2.2.2.2.1, hf.2.2.2.2.2.2.2.1, hf.2.2.2.2.2.2.2.2.1,
    hf.2.2.2.2.2.2.2.2.2.1, hf.2.2.2.2.2.2.2.2.2.2.1,
    hf.2.2.2.2.2.2.2.2.2.2.2.1, hf.2.2.2.2.2.2.2.2.2.2.2.2.1,
    hf.2.2.2.2.2.2.2.2.2.2.2.2.2⟩

/-- Witness for C5 on a one-document store re-ingesting the stored
content. -/
theorem duplicate_update_frame_witness :
    (process_document id wcTok 800 150 50 (fun _ => 0) none frameReq 1 9 50
        ⟨[frameDoc], [], []⟩).1.chunks = (⟨[frameDoc], [], []⟩ : Store).chunks ∧
    (process_document id wcTok 800 150 50 (fun _ => 0) none frameReq 1 9 50
        ⟨[frameDoc], [], []⟩).1.points = (⟨[frameDoc], [], []⟩ : Store).points ∧
    (process_document id wcTok 800 150 50 (fun _ => 0) none frameReq 1 9 50
        ⟨[frameDoc], [], []⟩).1.documents.length =
      (⟨[frameDoc], [], []⟩ : Store).documents.length ∧
    ∃ ud : DocumentRec,
      (process_document id wcTok 800 150 50 (fun _ => 0) none frameReq 1 9 50
          ⟨[frameDoc], [], []⟩).1.documents =
        (⟨[frameDoc], [], []⟩ : Store).documents.map
          (fun d => if d.id = frameDoc.id then ud else d) ∧
      ud.tenant_slug = frameDoc.tenant_slug ∧ ud.scope = frameDoc.scope ∧
      ud.type = frameDoc.type ∧ ud.system = frameDoc.system ∧
      ud.topic = frameDoc.topic ∧ ud.tcodes = frameDoc.tcodes ∧
      ud.tables = frameDoc.tables ∧ ud.tags = frameDoc.tags ∧
      ud.source = frameDoc.source ∧ ud.hash = frameDoc.hash ∧
      ud.created_at = frameDoc.created_at ∧
      ud.created_by = frameDoc.created_by ∧
      (ud.version = frameDoc.version ∨ ud.version = frameDoc.version + 1) :=
  duplicate_update_frame id wcTok 800 150 50 (fun _ => 0) none frameReq 1 9 50
    ⟨[frameDoc], [], []⟩ frameDoc (by decide)

/-- Claim C8, evaluated at a failing input: under a chunk ceiling of 2,
a text chunking into 3 pieces is stored truncated to exactly 2 chunk
rows and the response reports 2 chunks — but the response's warnings
list is empty: no truncation warning reaches the caller.  (In the
Python source the situation is worse still: `ingest.py` never imports
`settings`, so `_process_chunks` raises `NameError` at its first use of
`settings.max_chunks_per_doc`; the embedding resolves that name to the
configuration value.) -/
theorem truncation_not_surfaced :
    (chunk_text wcTok 3 0 truncReq.text).length = 3 ∧
    truncRun.2.chunks_count = 2 ∧
    truncRun.1.chunks.length = 2 ∧
    truncRun.2.warnings = [] := by decide

end SAPAssistant
